import Mathlib

/-!
A shallow embedding of `cuda_utils/linalg.py` (PyCUDA-based linear algebra:
`svd`, `dot`, `mdot`, `transpose`, `conj`, `diag`, `pinv`).

The embedding has two layers.

* A structural device model: every operation is a function from a device
  state (an allocation counter and a trace of device events) to a python
  result (`Except`, since the operations raise `ValueError`) together with
  the updated state.  Buffers (`GPUArray`) carry the attributes the python
  code branches on (`gpudata` handle, `shape`, `dtype`) and an abstract
  per-element content list.  The external libraries (cuBLAS `*gemm`,
  CULA `*gesvd`, the per-element conjugation `cuConjf`/`cuConj` of the
  generated kernels) are opaque collaborators of the repository, so they
  are a parameter (`Env`) of the model; theorems about the repository's
  control flow hold for every `Env`.

* Content models of the three generated CUDA kernels (`transpose`, `conj`,
  `diag`), written directly from the kernel templates in the source: one
  write per thread index `idx < N`, with the same index arithmetic.  They
  are generic in the element type, exactly as the templates are generic in
  the `TYPE`/`CONJ` macros.
-/

namespace CudaLinalg

/-- numpy element-type tags that the module branches on.  `int32` stands for
any numpy dtype outside the four types the module handles (one
representative is enough: the code only tests membership). -/
inductive Dtype
  | float32
  | float64
  | complex64
  | complex128
  | int32
  deriving DecidableEq, Repr

/-- Abstract scalar content of a device buffer: a finite value (floats are a
subset of the rationals), an IEEE infinity, or an undefined/uninitialized
value.  Complex entries are abstracted to one scalar slot; per-element
conjugation is an opaque `Env` function on this type. -/
inductive F32
  | fin : ℚ → F32
  | inf : F32
  | nan : F32
  deriving DecidableEq, Repr

instance : Inhabited F32 := ⟨F32.nan⟩

/-- Model of the elementwise `s_gpu **= np.float32(-1)` of `pinv`.  The
operator is pycuda's in-place pow, an elementwise device kernel with IEEE
semantics: `pow(0, -1) = +inf`, finite nonzero values get their reciprocal,
and no python exception is ever raised.  (pycuda is an external library;
this is modelled from IEEE-754 `pow`.) -/
def ieeePowNeg1 : F32 → F32
  | .fin q => if q = 0 then .inf else .fin q⁻¹
  | .inf => .fin 0
  | .nan => .nan

/-- `x ≥ y` on finite scalar contents; used to state the CULA contract that
singular values come back sorted non-increasingly. -/
def F32.geFinB : F32 → F32 → Bool
  | .fin a, .fin b => decide (b ≤ a)
  | _, _ => false

/-- Device-level events issued by the module, in program order. -/
inductive Event
  | alloc (id : Nat)
  | free (id : Nat)
  | kernelLaunch
  | gemmCall
  | gesvdCall
  deriving DecidableEq, Repr

def Event.isFree : Event → Bool
  | .free _ => true
  | _ => false

def Event.isAlloc : Event → Bool
  | .alloc _ => true
  | _ => false

/-- Device state: a fresh-handle counter and the trace of events so far. -/
structure DevState where
  nextId : Nat
  events : List Event
  deriving DecidableEq, Repr

def pushEvent (st : DevState) (e : Event) : DevState :=
  ⟨st.nextId, st.events ++ [e]⟩

/-- Model of `pycuda.gpuarray.GPUArray`: the device buffer handle
(`gpudata`), the row-major shape tuple, the numpy dtype and the abstract
buffer content. -/
structure GPUArray where
  gpudata : Nat
  shape : List Nat
  dtype : Dtype
  content : List F32
  deriving DecidableEq, Repr

/-- `a.size` of a GPUArray: the number of elements. -/
def GPUArray.size (a : GPUArray) : Nat := a.shape.prod

/-- `gpuarray.empty(shape, dtype)`: allocates a fresh uninitialized device
buffer. -/
def gpuarrayEmpty (shape : List Nat) (dtype : Dtype) (st : DevState) :
    GPUArray × DevState :=
  (⟨st.nextId, shape, dtype, List.replicate shape.prod F32.nan⟩,
   ⟨st.nextId + 1, st.events ++ [Event.alloc st.nextId]⟩)

/-- The exceptions raised by the module: `ValueError('unsupported type')` /
`ValueError('unrecognized type')` / `ValueError('unsupported combination of
input types')` are all `unsupportedType`; a non-success status from the
cuBLAS/CULA status check is `backendError`; `indexError` models the python
`IndexError` of `args[0]` on an empty `mdot` call (and the unpack failure of
a non-triple, which cannot happen on the paths the module takes);
`kernelCompileError` is the nvcc error `SourceModule` raises when the
generated kernel source is ill-formed. -/
inductive LinalgError
  | unsupportedType
  | backendError (status : Nat)
  | indexError
  | kernelCompileError
  deriving DecidableEq, Repr

/-- What the external CULA `gesvd` writes back: contents for the `s`, `u`
and `vt` buffers, and its status code. -/
structure GesvdOut where
  s : List F32
  u : List F32
  vt : List F32
  status : Nat
  deriving DecidableEq, Repr

/-- The external collaborators of the module (cuBLAS, CULA, and the
per-element complex conjugation of the generated kernels), abstracted as
opaque functions.  `gemm dtype a b` returns the content written into the
result buffer and the cuBLAS status; `gesvd dtype jobu jobvt m n aData`
returns the three output contents and the CULA status. -/
structure Env where
  conjScalar : F32 → F32
  gemm : Dtype → GPUArray → GPUArray → List F32 × Nat
  gesvd : Dtype → Char → Char → Nat → Nat → List F32 → GesvdOut

/-- Content model of the generated `transpose` kernel (template
`transpose_mod_template`): for each thread index `idx < N` (`N = rows*cols`,
geometry covers all of `N` per the device-environment contract), with
`ix = idx / cols` and `iy = idx % cols`, the kernel executes
`odata[iy*rows + ix] = CONJ(idata[ix*cols + iy])`.  Generic in the element
type and in `cj`, exactly as the template is generic in `TYPE` and `CONJ`
(`CONJ(x) = (x)` when `USE_COMPLEX == 0`). -/
def transposeKernel {α : Type} [Inhabited α] (rows cols : Nat) (cj : α → α)
    (idata : List α) : List α :=
  (List.range (rows * cols)).foldl
    (fun odata idx =>
      odata.set (idx % cols * rows + idx / cols)
        (cj (idata.getD (idx / cols * cols + idx % cols) default)))
    (List.replicate (rows * cols) default)

/-- Content model of the generated `conj` kernel (template
`conj_mod_template`): `a[idx] = CONJ(a[idx])` for every `idx < N`. -/
def conjKernel {α : Type} (cj : α → α) (adata : List α) : List α :=
  adata.map cj

/-- Content model of the generated `diag` kernel (template
`diag_mod_template`): for each `idx < N` (`N = cols*cols`), with
`ix = idx / cols` and `iy = idx % cols`, write `d[idx] = v[ix]` when
`ix == iy` and `d[idx] = 0.0` otherwise.  `zero` is the additive identity of
the element type (the `0.0` literal of the template). -/
def diagKernel {α : Type} [Inhabited α] (cols : Nat) (zero : α)
    (v : List α) : List α :=
  (List.range (cols * cols)).map
    (fun idx => if idx / cols = idx % cols then v.getD (idx / cols) default
                else zero)

/-- The four element types the kernel-based operations accept. -/
def supported4 : List Dtype :=
  [.float32, .float64, .complex64, .complex128]

/-- The dtype dispatch of `dot`: the four `elif` branches select
`cublasCgemm` / `cublasSgemm` / `cublasZgemm` / `cublasDgemm`; anything else
raises `ValueError('unsupported combination of input types')`. -/
def dotTypeOk : Dtype → Dtype → Bool
  | .complex64, .complex64 => true
  | .float32, .float32 => true
  | .complex128, .complex128 => true
  | .float64, .float64 => true
  | _, _ => false

/-- `dot(a_gpu, b_gpu)`: dtype dispatch, then allocation of the result of
shape `(a.shape[0], b.shape[1])`, then one gemm call with `alpha = 1`,
`beta = 0`, then the cuBLAS status check. -/
def dotRun (env : Env) (a b : GPUArray) (st : DevState) :
    Except LinalgError GPUArray × DevState :=
  if dotTypeOk a.dtype b.dtype then
    let (c0, st1) := gpuarrayEmpty [a.shape.getD 0 0, b.shape.getD 1 0] a.dtype st
    let (cData, status) := env.gemm a.dtype a b
    let st2 := pushEvent st1 .gemmCall
    if status = 0 then (.ok { c0 with content := cData }, st2)
    else (.error (.backendError status), st2)
  else (.error .unsupportedType, st)

/-- The loop of `mdot`: `temp_gpu = dot(out_gpu, next_gpu)`, then
`out_gpu.gpudata.free()`, then `out_gpu = temp_gpu`.  Note that on the very
first iteration `out_gpu` is `args[0]`, so the free hits the caller's first
input buffer. -/
def mdotLoop (env : Env) : GPUArray → List GPUArray → DevState →
    Except LinalgError GPUArray × DevState
  | out, [], st => (.ok out, st)
  | out, b :: rest, st =>
    match dotRun env out b st with
    | (.ok temp, st1) => mdotLoop env temp rest (pushEvent st1 (.free out.gpudata))
    | (.error e, st1) => (.error e, st1)

/-- `mdot(*args)`: `out_gpu = args[0]`, then the fold with `dot`. -/
def mdotRun (env : Env) (args : List GPUArray) (st : DevState) :
    Except LinalgError GPUArray × DevState :=
  match args with
  | [] => (.error .indexError, st)
  | a :: rest => mdotLoop env a rest st

/-- The value returned by `svd`: a `(vt_gpu, s_gpu, u_gpu)` triple when
`compute_uv`, otherwise `s_gpu` alone. -/
inductive SvdResult
  | uv (vt s u : GPUArray)
  | sOnly (s : GPUArray)
  deriving DecidableEq, Repr

/-- The singular-value array of either form of `svd` result. -/
def SvdResult.sArr : SvdResult → GPUArray
  | .uv _ s _ => s
  | .sOnly s => s

/-- `svd(a_gpu, full_matrices, compute_uv)`: dtype dispatch (`complex64` →
`culaDeviceCgesvd`, `float32` → `culaDeviceSgesvd`, else raise), shape
reversal `(m, n) = a_gpu.shape[::-1]` (CUDA assumes column-major storage),
allocation of `s` with `real_dtype = float32` and of the `u`/`vt` buffers
according to `jobu`/`jobvt`, the CULA call, the status check, and the
`(vt_gpu, s_gpu, u_gpu)` / `s_gpu` return. -/
def svdRun (env : Env) (a : GPUArray) (fullMatrices computeUv : Bool)
    (st : DevState) : Except LinalgError SvdResult × DevState :=
  if a.dtype = .complex64 ∨ a.dtype = .float32 then
    let m := a.shape.getD 1 0
    let n := a.shape.getD 0 0
    let (s0, st1) := gpuarrayEmpty [min m n] .float32 st
    -- jobu and jobvt are 'A'/'A', 'S'/'S' or 'N'/'N' as functions of
    -- (compute_uv, full_matrices); the source then compares jobu/jobvt
    -- against 'A' and 'S' to pick the `u`/`vt` buffer shapes, which is the
    -- same three-way distinction, so the model branches on the two booleans
    -- directly.
    let jobu : Char :=
      match computeUv, fullMatrices with
      | true, true => 'A'
      | true, false => 'S'
      | false, _ => 'N'
    let jobvt : Char :=
      match computeUv, fullMatrices with
      | true, true => 'A'
      | true, false => 'S'
      | false, _ => 'N'
    -- jobu == 'A': u is (ldu, m) with ldu = m; jobu == 'S': (min(m,n), ldu);
    -- otherwise ldu = 1 and u is a (1, 1) dummy.
    let (u0, st2) :=
      match computeUv, fullMatrices with
      | true, true => gpuarrayEmpty [m, m] a.dtype st1
      | true, false => gpuarrayEmpty [min m n, m] a.dtype st1
      | false, _ => gpuarrayEmpty [1, 1] a.dtype st1
    -- jobvt == 'A': vt is (n, n) with ldvt = n; jobvt == 'S': (n, ldvt) with
    -- ldvt = min(m, n); otherwise ldvt = 1 and vt is a (1, 1) dummy.
    let (vt0, st3) :=
      match computeUv, fullMatrices with
      | true, true => gpuarrayEmpty [n, n] a.dtype st2
      | true, false => gpuarrayEmpty [n, min m n] a.dtype st2
      | false, _ => gpuarrayEmpty [1, 1] a.dtype st2
    let out := env.gesvd a.dtype jobu jobvt m n a.content
    let st4 := pushEvent st3 .gesvdCall
    if out.status = 0 then
      if computeUv then
        (.ok (.uv { vt0 with content := out.vt } { s0 with content := out.s }
            { u0 with content := out.u }), st4)
      else (.ok (.sOnly { s0 with content := out.s }), st4)
    else (.error (.backendError out.status), st4)
  else (.error .unsupportedType, st)

/-- `transpose(a_gpu, dev)`: membership check of the dtype in the four
supported types, kernel instantiation with `use_complex` from the dtype
(`CONJ` is the complex conjugation for complex types and the identity for
real types), allocation of the output of shape `a_gpu.shape[::-1]`, and one
kernel launch.  The input buffer is only read (`idata`), never written. -/
def transposeRun (env : Env) (a : GPUArray) (st : DevState) :
    Except LinalgError GPUArray × DevState :=
  if a.dtype ∈ supported4 then
    let useComplex := a.dtype = .complex64 ∨ a.dtype = .complex128
    let cj := if useComplex then env.conjScalar else id
    let rows := a.shape.getD 0 0
    let cols := a.shape.getD 1 0
    let (at0, st1) := gpuarrayEmpty a.shape.reverse a.dtype st
    let st2 := pushEvent st1 .kernelLaunch
    (.ok { at0 with content := transposeKernel rows cols cj a.content }, st2)
  else (.error .unsupportedType, st)

/-- `conj(a_gpu, dev)`: immediate return for the real dtypes (no kernel, the
buffer untouched); for the complex dtypes, one in-place kernel launch; any
other dtype raises.  python returns `None`; the model returns the (possibly
updated) array to expose the in-place mutation of the buffer. -/
def conjRun (env : Env) (a : GPUArray) (st : DevState) :
    Except LinalgError GPUArray × DevState :=
  if a.dtype = .float32 ∨ a.dtype = .float64 then (.ok a, st)
  else if a.dtype = .complex64 ∨ a.dtype = .complex128 then
    (.ok { a with content := conjKernel env.conjScalar a.content },
     pushEvent st .kernelLaunch)
  else (.error .unsupportedType, st)

/-- `diag(v_gpu, dev)`: membership check of the dtype, kernel compilation,
then allocation of the `(v.size, v.size)` output and one kernel launch.
The `use_complex = 1` instantiations of `diag_mod_template` are ill-formed
CUDA: `d[idx] = 0.0;` assigns a `double` literal to `cuFloatComplex` /
`cuDoubleComplex` (`float2`/`double2`), which have no such conversion, so
for the complex dtypes `SourceModule` raises a compile error — before the
output buffer is allocated and before any launch (the docstring indeed
says the function "assumes that the input array contains real values"). -/
def diagRun (env : Env) (v : GPUArray) (st : DevState) :
    Except LinalgError GPUArray × DevState :=
  if v.dtype ∈ supported4 then
    if v.dtype = .complex64 ∨ v.dtype = .complex128 then
      (.error .kernelCompileError, st)
    else
      let (d0, st1) := gpuarrayEmpty [v.size, v.size] v.dtype st
      let st2 := pushEvent st1 .kernelLaunch
      (.ok { d0 with content := diagKernel v.size (F32.fin 0) v.content }, st2)
  else (.error .unsupportedType, st)

/-- `pinv(a_gpu, dev)`: dtype check `{float32, complex64}`, then
`conj(a_gpu, dev)` in place, `u_gpu, s_gpu, vh_gpu = svd(a_gpu, 0)` (so
`u_gpu` is bound to the first returned component, the `vt` buffer),
`uh_gpu = transpose(u_gpu, dev)`, `s_gpu **= np.float32(-1)` (an in-place
elementwise kernel), `s_diag_gpu = diag(s_gpu, dev)`,
`v_gpu = transpose(vh_gpu, dev)`, `suh_gpu = dot(s_diag_gpu, uh_gpu)` and
finally `dot(v_gpu, suh_gpu)`.  No buffer is ever freed. -/
def pinvRun (env : Env) (a : GPUArray) (st : DevState) :
    Except LinalgError GPUArray × DevState :=
  if a.dtype = .float32 ∨ a.dtype = .complex64 then
    match conjRun env a st with
    | (.error e, st1) => (.error e, st1)
    | (.ok a1, st1) =>
      match svdRun env a1 false true st1 with
      | (.error e, st2) => (.error e, st2)
      | (.ok (.sOnly _), st2) => (.error .indexError, st2)
      | (.ok (.uv u_py s0 vh_py), st2) =>
        match transposeRun env u_py st2 with
        | (.error e, st3) => (.error e, st3)
        | (.ok uh, st3) =>
          let s1 : GPUArray := { s0 with content := s0.content.map ieeePowNeg1 }
          let st4 := pushEvent st3 .kernelLaunch
          match diagRun env s1 st4 with
          | (.error e, st5) => (.error e, st5)
          | (.ok sdiag, st5) =>
            match transposeRun env vh_py st5 with
            | (.error e, st6) => (.error e, st6)
            | (.ok v, st6) =>
              match dotRun env sdiag uh st6 with
              | (.error e, st7) => (.error e, st7)
              | (.ok suh, st7) => dotRun env v suh st7
  else (.error .unsupportedType, st)

/-- Handles allocated in a trace, in order. -/
def allocIds (st : DevState) : List Nat :=
  st.events.filterMap (fun e => match e with | .alloc i => some i | _ => none)

/-- Handles freed in a trace, in order. -/
def freedIds (st : DevState) : List Nat :=
  st.events.filterMap (fun e => match e with | .free i => some i | _ => none)

/-- Handles allocated in a trace and never freed in it. -/
def liveIds (st : DevState) : List Nat :=
  (allocIds st).filter (fun i => ¬ i ∈ freedIds st)

/-- Number of `free` events in a trace. -/
def freeCount (st : DevState) : Nat :=
  st.events.countP Event.isFree

def exceptIsOk {ε α : Type} : Except ε α → Bool
  | .ok _ => true
  | .error _ => false

/-- A trivial environment (all statuses succeed) used to evaluate the model
on concrete inputs. -/
def env0 : Env :=
  ⟨id, fun _ _ _ => ([], 0), fun _ _ _ _ _ _ => ⟨[], [], [], 0⟩⟩

/-- A fresh device state whose next handle is 1 (handle 0 is the caller's
input buffer). -/
def stFresh1 : DevState := ⟨1, []⟩

/-- A fresh device state whose next handle is 3 (handles 0, 1, 2 are the
caller's input buffers). -/
def stFresh3 : DevState := ⟨3, []⟩

/-- Three float32 input matrices for `mdot`, owning buffers 0, 1, 2. -/
def g0 : GPUArray := ⟨0, [2, 2], .float32, []⟩

def g1 : GPUArray := ⟨1, [2, 2], .float32, []⟩

def g2 : GPUArray := ⟨2, [2, 2], .float32, []⟩

/-- A matrix of an element type outside the supported set, owning buffer 2. -/
def gInt : GPUArray := ⟨2, [2, 2], .int32, []⟩

/-- A concrete 2×1 float32 input for `pinv`, owning buffer 0. -/
def aPinv : GPUArray := ⟨0, [2, 1], .float32, [.fin 1, .fin 2]⟩

/-- A concrete 1×1 complex64 input for `pinv`, owning buffer 0. -/
def aCplx : GPUArray := ⟨0, [1, 1], .complex64, [.fin 1]⟩

/-- An environment whose SVD reports the single nonzero singular value 1. -/
def envCplx : Env :=
  { env0 with gesvd := fun _ _ _ _ _ _ => ⟨[.fin 1], [.fin 1], [.fin 1], 0⟩ }

/-- A concrete 2×2 float32 input for `pinv`, owning buffer 0. -/
def aSing : GPUArray := ⟨0, [2, 2], .float32, [.fin 1, .fin 0, .fin 0, .fin 1]⟩

/-- An environment whose SVD reports a zero singular value (a singular
input matrix). -/
def envSing : Env :=
  { env0 with gesvd := fun _ _ _ _ _ _ => ⟨[.fin 1, .fin 0], [], [], 0⟩ }

/-- An environment whose SVD reports the non-increasing singular values
2, 1. -/
def envSorted : Env :=
  { env0 with gesvd := fun _ _ _ _ _ _ => ⟨[.fin 2, .fin 1], [.fin 0], [.fin 0], 0⟩ }

/-- A concrete 2×3 float32 input for `svd`, owning buffer 0. -/
def aSvd : GPUArray := ⟨0, [2, 3], .float32, []⟩

/-- A concrete 1×2 float32 input for `transpose`, owning buffer 0. -/
def aTrans : GPUArray := ⟨0, [1, 2], .float32, [.fin 3, .fin 4]⟩

/-- A concrete length-2 float32 vector for `diag`, owning buffer 0. -/
def vDiag : GPUArray := ⟨0, [2], .float32, [.fin 5, .fin 7]⟩

/-- A concrete length-2 complex64 vector for `diag`, owning buffer 0. -/
def vCplx : GPUArray := ⟨0, [2], .complex64, [.fin 1, .fin 2]⟩

end CudaLinalg

namespace CudaLinalg

/-! ### Generic lemmas about the one-write-per-thread kernels -/

theorem foldlSet_length {α : Type} (f : Nat → α) (p : Nat → Nat)
    (l0 : List α) (n : Nat) :
    ((List.range n).foldl (fun l t => l.set (p t) (f t)) l0).length = l0.length := by
  induction n with
  | zero => rfl
  | succ k ih =>
    rw [List.range_succ, List.foldl_append, List.foldl_cons, List.foldl_nil,
      List.length_set, ih]

theorem foldlSet_getD {α : Type} [Inhabited α] (f : Nat → α) (p : Nat → Nat)
    (l0 : List α) (t0 : Nat) (hlt : p t0 < l0.length) :
    ∀ n, t0 < n → (∀ t, t < n → p t = p t0 → t = t0) →
      ((List.range n).foldl (fun l t => l.set (p t) (f t)) l0).getD (p t0) default
        = f t0 := by
  intro n
  induction n with
  | zero => intro h _; omega
  | succ k ih =>
    intro ht0 hinj
    rw [List.range_succ, List.foldl_append, List.foldl_cons, List.foldl_nil]
    by_cases hk : t0 = k
    · subst hk
      have hlen := foldlSet_length f p l0 t0
      rw [List.getD_eq_getElem?_getD, List.getElem?_set_self (by rw [hlen]; exact hlt)]
      rfl
    · have hne : p k ≠ p t0 := fun h => hk ((hinj k (Nat.lt_succ_self k) h).symm ▸ rfl)
      rw [List.getD_eq_getElem?_getD, List.getElem?_set_ne hne,
        ← List.getD_eq_getElem?_getD]
      exact ih (by omega) (fun t ht => hinj t (by omega))

theorem rowEncode_div (x y m : Nat) (hy : y < m) : (x * m + y) / m = x := by
  rw [Nat.mul_comm, Nat.mul_add_div (by omega), Nat.div_eq_of_lt hy, Nat.add_zero]

theorem rowEncode_mod (x y m : Nat) (hy : y < m) : (x * m + y) % m = y := by
  rw [Nat.mul_comm, Nat.mul_add_mod, Nat.mod_eq_of_lt hy]

theorem rowEncode_lt (x y m k : Nat) (hx : x < k) (hy : y < m) :
    x * m + y < k * m := by
  have h1 : x * m + y < (x + 1) * m := by rw [Nat.succ_mul]; omega
  have h2 : (x + 1) * m ≤ k * m := Nat.mul_le_mul_right m (by omega)
  omega

theorem transposeKernel_getD {α : Type} [Inhabited α] (rows cols : Nat)
    (cj : α → α) (idata : List α) (i j : Nat) (hi : i < rows) (hj : j < cols) :
    (transposeKernel rows cols cj idata).getD (j * rows + i) default
      = cj (idata.getD (i * cols + j) default) := by
  have hcols : 0 < cols := by omega
  have hdiv0 : (i * cols + j) / cols = i := rowEncode_div i j cols hj
  have hmod0 : (i * cols + j) % cols = j := rowEncode_mod i j cols hj
  have hp0 : (i * cols + j) % cols * rows + (i * cols + j) / cols = j * rows + i := by
    rw [hdiv0, hmod0]
  have hidx : (i * cols + j) / cols * cols + (i * cols + j) % cols = i * cols + j := by
    rw [hdiv0, hmod0]
  have hlt : j * rows + i < (List.replicate (rows * cols) (default : α)).length := by
    rw [List.length_replicate, Nat.mul_comm rows cols]
    exact rowEncode_lt j i rows cols hj hi
  have ht0 : i * cols + j < rows * cols := rowEncode_lt i j cols rows hi hj
  have hinj : ∀ t, t < rows * cols →
      t % cols * rows + t / cols = (i * cols + j) % cols * rows + (i * cols + j) / cols →
      t = i * cols + j := by
    intro t ht hpt
    rw [hp0] at hpt
    have h1 : t / cols < rows := by
      rw [Nat.div_lt_iff_lt_mul hcols]; omega
    have h2 : t % cols < cols := Nat.mod_lt _ hcols
    have hmodEq : t / cols = i := by
      have h := congrArg (· % rows) hpt
      simp only at h
      rwa [rowEncode_mod _ _ rows h1, rowEncode_mod _ _ rows hi] at h
    have hdivEq : t % cols = j := by
      have h := congrArg (· / rows) hpt
      simp only at h
      rwa [rowEncode_div _ _ rows h1, rowEncode_div _ _ rows hi] at h
    have ht' := Nat.div_add_mod t cols
    rw [hmodEq, hdivEq] at ht'
    rw [← ht', Nat.mul_comm cols i]
  have key : (transposeKernel rows cols cj idata).getD
      ((i * cols + j) % cols * rows + (i * cols + j) / cols) default
      = cj (idata.getD ((i * cols + j) / cols * cols + (i * cols + j) % cols) default) :=
    foldlSet_getD (fun idx => cj (idata.getD (idx / cols * cols + idx % cols) default))
      (fun idx => idx % cols * rows + idx / cols)
      (List.replicate (rows * cols) default)
      (i * cols + j)
      (by
        show (i * cols + j) % cols * rows + (i * cols + j) / cols
            < (List.replicate (rows * cols) (default : α)).length
        rw [hp0]; exact hlt)
      (rows * cols) ht0 hinj
  rw [← hp0, key, hidx]

theorem diagKernel_getD {α : Type} [Inhabited α] (k : Nat) (zero : α)
    (v : List α) (i j : Nat) (hi : i < k) (hj : j < k) :
    (diagKernel k zero v).getD (i * k + j) default
      = if i = j then v.getD i default else zero := by
  have hdiv0 : (i * k + j) / k = i := rowEncode_div i j k hj
  have hmod0 : (i * k + j) % k = j := rowEncode_mod i j k hj
  have hlt : i * k + j < k * k := rowEncode_lt i j k k hi hj
  unfold diagKernel
  rw [List.getD_eq_getElem?_getD, List.getElem?_map, List.getElem?_range hlt]
  simp only [Option.map_some', Option.getD_some, hdiv0, hmod0]

end CudaLinalg

namespace CudaLinalg

/-! ### Claim C3: `mdot` and the lifetime of its buffers -/

/-- C3 (code bug).  `mdot(a1, a2, a3)` on three supported float32 matrices
(buffers 0, 1, 2): the loop body runs `temp_gpu = dot(out_gpu, next_gpu)`
followed by `out_gpu.gpudata.free()`, and on the first iteration `out_gpu`
is `args[0]` itself, so the trace frees buffer 0 — the caller's first input
— right after the first product, before freeing the intermediate product
(buffer 3) after the second.  The claim (and the code's own comment "free
the temporary matrix allocated when computing the dot product") says the
first input's buffer is never freed. -/
theorem mdot_frees_first_input_c3 :
    mdotRun env0 [g0, g1, g2] stFresh3
      = (.ok ⟨4, [2, 2], .float32, []⟩,
         ⟨5, [.alloc 3, .gemmCall, .free 0, .alloc 4, .gemmCall, .free 3]⟩) ∧
    freedIds (mdotRun env0 [g0, g1, g2] stFresh3).2 = [0, 3] ∧
    g0.gpudata = 0 := by
  exact ⟨rfl, rfl, rfl⟩

/-! ### Claim C1: what `pinv` does on a complex64 input -/

/-- C1 (code bug).  On a complex64 input (here 1×1, with a nonzero singular
value reported by the backend), `pinv` never returns the pseudoinverse: the
singular-value array is allocated with `real_dtype = float32`, so
`dot(s_diag_gpu, uh_gpu)` sees the pair (float32, complex64), which matches
none of the four gemm branches, and `pinv` dies with
`ValueError('unsupported combination of input types')`.  The trace shows the
failure happens after the conj kernel, the SVD, both transposes and the
diag kernel. -/
theorem pinv_complex_rejected_c1 :
    aCplx.dtype = .complex64 ∧
    (envCplx.gesvd .complex64 'S' 'S' 1 1 [F32.fin 1]).s = [F32.fin 1] ∧
    pinvRun envCplx aCplx stFresh1
      = (.error .unsupportedType,
         ⟨7, [.kernelLaunch, .alloc 1, .alloc 2, .alloc 3, .gesvdCall,
              .alloc 4, .kernelLaunch, .kernelLaunch, .alloc 5, .kernelLaunch,
              .alloc 6, .kernelLaunch]⟩) := by
  exact ⟨rfl, rfl, rfl⟩

/-! ### Claim C2: `pinv` and zero singular values -/

/-- C2 (counterexample).  On a float32 input whose SVD contains the zero
singular value (backend reports S = [1, 0]), `pinv` does not fail at the
inversion step: `s_gpu **= np.float32(-1)` is an unconditional elementwise
kernel (IEEE: `0 ** -1 = +inf`), no `DivisionSingularityError` exists
anywhere in the code, and `pinv` returns a result. -/
theorem pinv_zero_singular_returns_c2 :
    (envSing.gesvd .float32 'S' 'S' 2 2 aSing.content).s = [F32.fin 1, F32.fin 0] ∧
    exceptIsOk (pinvRun envSing aSing stFresh1).1 = true ∧
    [F32.fin 1, F32.fin 0].map ieeePowNeg1 = [F32.fin 1, F32.inf] := by
  refine ⟨rfl, rfl, ?_⟩
  norm_num [ieeePowNeg1]

/-! ### Claim C7: `pinv` and the lifetime of its intermediates -/

/-- C7 (counterexample).  A concrete `pinv` run on a 2×1 float32 input:
eight buffers are allocated (`s`, `u`, `vt` from the SVD, then `uh_gpu`,
`s_diag_gpu`, `v_gpu`, `suh_gpu` and the returned product), the trace
contains no free whatsoever, and on return every one of the seven
intermediates is still allocated alongside the result (buffer 8) — not
"only the final result and the caller's input". -/
theorem pinv_intermediates_live_c7 :
    pinvRun env0 aPinv stFresh1
      = (.ok ⟨8, [1, 2], .float32, []⟩,
         ⟨9, [.alloc 1, .alloc 2, .alloc 3, .gesvdCall, .alloc 4,
              .kernelLaunch, .kernelLaunch, .alloc 5, .kernelLaunch,
              .alloc 6, .kernelLaunch, .alloc 7, .gemmCall, .alloc 8,
              .gemmCall]⟩) ∧
    liveIds (pinvRun env0 aPinv stFresh1).2 = [1, 2, 3, 4, 5, 6, 7, 8] ∧
    freeCount (pinvRun env0 aPinv stFresh1).2 = 0 := by
  exact ⟨rfl, rfl, rfl⟩

/-! ### Claim C5: the counterexample for `mdot` -/

/-- C5 (counterexample).  `mdot(a1, a2, a3)` where only the third matrix has
an unsupported element type: the rejection does come (from `dot`'s dtype
dispatch), but only after a gemm device call has been issued for `a1·a2`
and after the free of buffer 0 — not "before any device call is issued and
with no side effects on the input". -/
theorem mdot_late_typecheck_c5 :
    mdotRun env0 [g0, g1, gInt] stFresh3
      = (.error .unsupportedType, ⟨4, [.alloc 3, .gemmCall, .free 0]⟩) := by
  exact rfl

/-! ### Claim C9: `conj` on real-typed matrices -/

/-- C9.  For a matrix of real element type (float32 or float64), `conj`
short-circuits at `if a_gpu.dtype in [np.float32, np.float64]: return`:
the returned buffer is the input itself, bit-identical, and the device
state is untouched (no kernel launch, no allocation). -/
theorem conj_real_noop_c9 (env : Env) (a : GPUArray) (st : DevState)
    (hdt : a.dtype = .float32 ∨ a.dtype = .float64) :
    conjRun env a st = (.ok a, st) := by
  unfold conjRun
  rw [if_pos hdt]

/-- Witness for C9 at a concrete float32 matrix. -/
theorem conj_real_noop_c9_w :
    conjRun env0 aTrans stFresh1 = (.ok aTrans, stFresh1) :=
  conj_real_noop_c9 env0 aTrans stFresh1 (Or.inl rfl)

end CudaLinalg

namespace CudaLinalg

/-! ### Claim C6: `transpose` semantics -/

/-- C6.  `transpose` on an `m×n` matrix of a supported element type returns
a freshly allocated buffer (handle `st.nextId`, distinct from every
existing buffer) of shape `n×m` and the same dtype, whose content is one
pass of the transpose kernel over the input content; the input buffer is
only read (`idata`), never written.  Pointwise, the kernel puts at output
position `(j, i)` (row-major index `j*m + i`) the value `CONJ` of input
position `(i, j)` (row-major index `i*n + j`); for the real instantiations
of the template `CONJ(x) = (x)`, so the element is copied unchanged (shown
at ℚ, floats being a subset of the rationals), and for the complex
instantiations `CONJ` is the complex conjugate (shown at ℂ with `star`),
i.e. the result is the Hermitian adjoint, not the plain transpose. -/
theorem transpose_semantics_c6 (env : Env) (st : DevState) (a : GPUArray)
    (m n : Nat) (hsh : a.shape = [m, n]) (hdt : a.dtype ∈ supported4) :
    (transposeRun env a st
      = (.ok ⟨st.nextId, [n, m], a.dtype,
          transposeKernel m n
            (if a.dtype = .complex64 ∨ a.dtype = .complex128 then env.conjScalar
             else id) a.content⟩,
         ⟨st.nextId + 1, st.events ++ [.alloc st.nextId] ++ [.kernelLaunch]⟩)) ∧
    (∀ (A : List ℚ) (i j : Nat), i < m → j < n →
      (transposeKernel m n (fun x => x) A).getD (j * m + i) default
        = A.getD (i * n + j) default) ∧
    (∀ (A : List ℂ) (i j : Nat), i < m → j < n →
      (transposeKernel m n (fun z => star z) A).getD (j * m + i) default
        = star (A.getD (i * n + j) default)) := by
  refine ⟨?_, ?_, ?_⟩
  · unfold transposeRun
    rw [if_pos hdt, hsh]
    rfl
  · intro A i j hi hj
    exact transposeKernel_getD m n (fun x => x) A i j hi hj
  · intro A i j hi hj
    exact transposeKernel_getD m n (fun z => star z) A i j hi hj

/-- Witness for C6 at a concrete 1×2 float32 matrix. -/
theorem transpose_semantics_c6_w :
    (transposeRun env0 aTrans stFresh1
      = (.ok ⟨1, [2, 1], aTrans.dtype,
          transposeKernel 1 2
            (if aTrans.dtype = .complex64 ∨ aTrans.dtype = .complex128 then
              env0.conjScalar else id) aTrans.content⟩,
         ⟨2, [.alloc 1] ++ [.kernelLaunch]⟩)) ∧
    (∀ (A : List ℚ) (i j : Nat), i < 1 → j < 2 →
      (transposeKernel 1 2 (fun x => x) A).getD (j * 1 + i) default
        = A.getD (i * 2 + j) default) ∧
    (∀ (A : List ℂ) (i j : Nat), i < 1 → j < 2 →
      (transposeKernel 1 2 (fun z => star z) A).getD (j * 1 + i) default
        = star (A.getD (i * 2 + j) default)) :=
  transpose_semantics_c6 env0 stFresh1 aTrans 1 2 rfl (by decide)

/-! ### Claim C8: `diag` semantics -/

/-- C8 (counterexample).  On a complex64 vector — an element type the claim
counts as supported, and one `diag`'s own dtype check admits — `diag` does
not return a `k×k` matrix at all: the complex instantiation of the kernel
template is ill-formed (`d[idx] = 0.0;` with `TYPE cuFloatComplex`), so the
kernel-source compilation fails and `diag` raises before allocating
anything. -/
theorem diag_complex_compile_fail_c8 :
    vCplx.dtype = .complex64 ∧
    diagRun env0 vCplx stFresh1 = (.error .kernelCompileError, stFresh1) := by
  exact ⟨rfl, rfl⟩

/-- C8 (amended).  `diag` on a length-`k` vector of a *real* supported
element type (float32 or float64) returns a freshly allocated `k×k` buffer
of the same dtype holding one pass of the diag kernel.  Pointwise, for
every `i, j < k`, the kernel puts `v[i]` at position `(i, i)` and the
additive identity of the element type at every off-diagonal position
`(i, j)`, `i ≠ j` (stated generically over any type with a zero, as the
template is generic over `TYPE`).  For the complex element types the
generated kernel source does not compile and `diag` fails with a
kernel-compile error, with the device state untouched. -/
theorem diag_semantics_c8 (env : Env) (st : DevState) (v : GPUArray)
    (hdt : v.dtype = .float32 ∨ v.dtype = .float64) :
    (diagRun env v st
      = (.ok ⟨st.nextId, [v.size, v.size], v.dtype,
          diagKernel v.size (F32.fin 0) v.content⟩,
         ⟨st.nextId + 1, st.events ++ [.alloc st.nextId] ++ [.kernelLaunch]⟩)) ∧
    (∀ (α : Type) (_ : Zero α) (_ : Inhabited α) (w : List α) (k i j : Nat),
      i < k → j < k →
      (diagKernel k (0 : α) w).getD (i * k + j) default
        = if i = j then w.getD i default else 0) ∧
    (∀ (w : GPUArray) (st₂ : DevState),
      w.dtype = .complex64 ∨ w.dtype = .complex128 →
      diagRun env w st₂ = (.error .kernelCompileError, st₂)) := by
  refine ⟨?_, ?_, ?_⟩
  · have hmem : v.dtype ∈ supported4 := by
      rcases hdt with h | h <;> rw [h] <;> decide
    have hnc : ¬(v.dtype = .complex64 ∨ v.dtype = .complex128) := by
      rcases hdt with h | h <;> rw [h] <;> decide
    unfold diagRun
    rw [if_pos hmem, if_neg hnc]
    rfl
  · intro α _ _ w k i j hi hj
    exact diagKernel_getD k 0 w i j hi hj
  · intro w st₂ hw
    have hmem : w.dtype ∈ supported4 := by
      rcases hw with h | h <;> rw [h] <;> decide
    unfold diagRun
    rw [if_pos hmem, if_pos hw]

/-- Witness for C8's amended claim at a concrete length-2 float32 vector. -/
theorem diag_semantics_c8_w :
    (diagRun env0 vDiag stFresh1
      = (.ok ⟨1, [vDiag.size, vDiag.size], vDiag.dtype,
          diagKernel vDiag.size (F32.fin 0) vDiag.content⟩,
         ⟨2, [.alloc 1] ++ [.kernelLaunch]⟩)) ∧
    (∀ (α : Type) (_ : Zero α) (_ : Inhabited α) (w : List α) (k i j : Nat),
      i < k → j < k →
      (diagKernel k (0 : α) w).getD (i * k + j) default
        = if i = j then w.getD i default else 0) ∧
    (∀ (w : GPUArray) (st₂ : DevState),
      w.dtype = .complex64 ∨ w.dtype = .complex128 →
      diagRun env0 w st₂ = (.error .kernelCompileError, st₂)) :=
  diag_semantics_c8 env0 stFresh1 vDiag (Or.inl rfl)

end CudaLinalg

namespace CudaLinalg

/-! ### Claim C10: the dtype of the singular-value array -/

/-- C10.  `svd` allocates the singular-value array with
`real_dtype = np.float32` unconditionally, so whenever it succeeds — in
particular on complex64 input — the returned `S` has element type float32. -/
theorem svd_s_float32_c10 (env : Env) (a : GPUArray) (fm cu : Bool)
    (st st₂ : DevState) (r : SvdResult)
    (hdt : a.dtype = .complex64 ∨ a.dtype = .float32)
    (h : svdRun env a fm cu st = (.ok r, st₂)) :
    r.sArr.dtype = .float32 := by
  unfold svdRun at h
  rw [if_pos hdt] at h
  cases cu <;> cases fm <;> dsimp only at h
  case false.false =>
    cases hstat : (env.gesvd a.dtype 'N' 'N' (a.shape.getD 1 0)
        (a.shape.getD 0 0) a.content).status
    case zero =>
      rw [hstat, if_pos rfl, if_neg (by decide)] at h
      injection h with h1 h2
      injection h1 with h1
      rw [← h1]
      rfl
    case succ k =>
      rw [hstat, if_neg (by simp)] at h
      injection h with h1 h2
      exact Except.noConfusion h1
  case false.true =>
    cases hstat : (env.gesvd a.dtype 'N' 'N' (a.shape.getD 1 0)
        (a.shape.getD 0 0) a.content).status
    case zero =>
      rw [hstat, if_pos rfl, if_neg (by decide)] at h
      injection h with h1 h2
      injection h1 with h1
      rw [← h1]
      rfl
    case succ k =>
      rw [hstat, if_neg (by simp)] at h
      injection h with h1 h2
      exact Except.noConfusion h1
  case true.false =>
    cases hstat : (env.gesvd a.dtype 'S' 'S' (a.shape.getD 1 0)
        (a.shape.getD 0 0) a.content).status
    case zero =>
      rw [hstat, if_pos rfl, if_pos rfl] at h
      injection h with h1 h2
      injection h1 with h1
      rw [← h1]
      rfl
    case succ k =>
      rw [hstat, if_neg (by simp)] at h
      injection h with h1 h2
      exact Except.noConfusion h1
  case true.true =>
    cases hstat : (env.gesvd a.dtype 'A' 'A' (a.shape.getD 1 0)
        (a.shape.getD 0 0) a.content).status
    case zero =>
      rw [hstat, if_pos rfl, if_pos rfl] at h
      injection h with h1 h2
      injection h1 with h1
      rw [← h1]
      rfl
    case succ k =>
      rw [hstat, if_neg (by simp)] at h
      injection h with h1 h2
      exact Except.noConfusion h1

end CudaLinalg

namespace CudaLinalg

/-- Witness for C10: a concrete float32 run with `compute_uv = 0`. -/
theorem svd_s_float32_c10_w :
    (SvdResult.sOnly ⟨1, [2], .float32, ([] : List F32)⟩).sArr.dtype
      = .float32 :=
  svd_s_float32_c10 env0 aSvd false false stFresh1
    ⟨4, [.alloc 1, .alloc 2, .alloc 3, .gesvdCall]⟩
    (.sOnly ⟨1, [2], .float32, []⟩) (Or.inr rfl) rfl

/-! ### Claim C4: the result of `svd` -/

/-- C4.  Whenever the backend succeeds, `svd` with `compute_uv` returns the
triple `(vt_gpu, s_gpu, u_gpu)` — the buffer the backend filled with the
right-singular-vector data (`vt`) first and the left one (`u`) last, the
deliberate swap of the conventional `(u, s, vt)` ordering (for both
`full_matrices` modes, jobs 'A'/'A' and 'S'/'S').  Without `compute_uv` it
returns `s_gpu` alone: the buffer of shape `[min(m, n)]` (the shape of the
input being `m×n = r×c`; the reversal `(m, n) = a.shape[::-1]` does not
change the min) into which the backend wrote the singular values unchanged —
so, under the CULA contract that the values come back sorted
non-increasingly, the returned sequence is non-increasing. -/
theorem svd_return_order_c4 (env : Env) (st : DevState) (a : GPUArray)
    (r c : Nat) (fm : Bool)
    (hsh : a.shape = [r, c])
    (hdt : a.dtype = .complex64 ∨ a.dtype = .float32) :
    ((env.gesvd a.dtype 'A' 'A' c r a.content).status = 0 →
      ∃ st₂ vt s u,
        svdRun env a true true st = (.ok (.uv vt s u), st₂) ∧
        vt.content = (env.gesvd a.dtype 'A' 'A' c r a.content).vt ∧
        s.content = (env.gesvd a.dtype 'A' 'A' c r a.content).s ∧
        u.content = (env.gesvd a.dtype 'A' 'A' c r a.content).u) ∧
    ((env.gesvd a.dtype 'S' 'S' c r a.content).status = 0 →
      ∃ st₂ vt s u,
        svdRun env a false true st = (.ok (.uv vt s u), st₂) ∧
        vt.content = (env.gesvd a.dtype 'S' 'S' c r a.content).vt ∧
        s.content = (env.gesvd a.dtype 'S' 'S' c r a.content).s ∧
        u.content = (env.gesvd a.dtype 'S' 'S' c r a.content).u) ∧
    ((env.gesvd a.dtype 'N' 'N' c r a.content).status = 0 →
      ∃ st₂ s,
        svdRun env a fm false st = (.ok (.sOnly s), st₂) ∧
        s.dtype = .float32 ∧
        s.shape = [min r c] ∧
        s.content = (env.gesvd a.dtype 'N' 'N' c r a.content).s ∧
        (List.Chain' (fun x y => F32.geFinB x y = true)
            (env.gesvd a.dtype 'N' 'N' c r a.content).s →
          List.Chain' (fun x y => F32.geFinB x y = true) s.content)) := by
  refine ⟨?_, ?_, ?_⟩
  · intro hstat
    have heq : svdRun env a true true st
        = (.ok (.uv
            ⟨st.nextId + 1 + 1, [r, r], a.dtype,
              (env.gesvd a.dtype 'A' 'A' c r a.content).vt⟩
            ⟨st.nextId, [min c r], .float32,
              (env.gesvd a.dtype 'A' 'A' c r a.content).s⟩
            ⟨st.nextId + 1, [c, c], a.dtype,
              (env.gesvd a.dtype 'A' 'A' c r a.content).u⟩),
           ⟨st.nextId + 1 + 1 + 1,
            st.events ++ [.alloc st.nextId] ++ [.alloc (st.nextId + 1)]
              ++ [.alloc (st.nextId + 1 + 1)] ++ [.gesvdCall]⟩) := by
      unfold svdRun
      rw [if_pos hdt, hsh]
      simp only [List.getD_cons_zero, List.getD_cons_succ]
      rw [if_pos hstat, if_pos trivial]
      rfl
    exact ⟨_, _, _, _, heq, rfl, rfl, rfl⟩
  · intro hstat
    have heq : svdRun env a false true st
        = (.ok (.uv
            ⟨st.nextId + 1 + 1, [r, min c r], a.dtype,
              (env.gesvd a.dtype 'S' 'S' c r a.content).vt⟩
            ⟨st.nextId, [min c r], .float32,
              (env.gesvd a.dtype 'S' 'S' c r a.content).s⟩
            ⟨st.nextId + 1, [min c r, c], a.dtype,
              (env.gesvd a.dtype 'S' 'S' c r a.content).u⟩),
           ⟨st.nextId + 1 + 1 + 1,
            st.events ++ [.alloc st.nextId] ++ [.alloc (st.nextId + 1)]
              ++ [.alloc (st.nextId + 1 + 1)] ++ [.gesvdCall]⟩) := by
      unfold svdRun
      rw [if_pos hdt, hsh]
      simp only [List.getD_cons_zero, List.getD_cons_succ]
      rw [if_pos hstat, if_pos trivial]
      rfl
    exact ⟨_, _, _, _, heq, rfl, rfl, rfl⟩
  · intro hstat
    have heq : svdRun env a fm false st
        = (.ok (.sOnly
            ⟨st.nextId, [min c r], .float32,
              (env.gesvd a.dtype 'N' 'N' c r a.content).s⟩),
           ⟨st.nextId + 1 + 1 + 1,
            st.events ++ [.alloc st.nextId] ++ [.alloc (st.nextId + 1)]
              ++ [.alloc (st.nextId + 1 + 1)] ++ [.gesvdCall]⟩) := by
      unfold svdRun
      rw [if_pos hdt, hsh]
      simp only [List.getD_cons_zero, List.getD_cons_succ]
      cases fm <;> (rw [if_pos hstat, if_neg (by decide)]; rfl)
    exact ⟨_, _, heq, rfl, by rw [Nat.min_comm c r], rfl, fun hs => hs⟩

/-- Witness for C4: a concrete float32 run with a backend reporting the
non-increasing singular values 2, 1. -/
theorem svd_return_order_c4_w :
    ∃ st₂ s,
      svdRun envSorted aSvd false false stFresh1 = (.ok (.sOnly s), st₂) ∧
      s.dtype = .float32 ∧
      s.shape = [min 2 3] ∧
      s.content = (envSorted.gesvd .float32 'N' 'N' 3 2 aSvd.content).s ∧
      (List.Chain' (fun x y => F32.geFinB x y = true)
          (envSorted.gesvd .float32 'N' 'N' 3 2 aSvd.content).s →
        List.Chain' (fun x y => F32.geFinB x y = true) s.content) :=
  (svd_return_order_c4 envSorted stFresh1 aSvd 2 3 false rfl (Or.inr rfl)).2.2 rfl

end CudaLinalg

namespace CudaLinalg

/-! ### Claim C5: dtype rejection across the operations -/

theorem dotTypeOk_false_left (a b : Dtype) (h : a ∉ supported4) :
    dotTypeOk a b = false := by
  cases a <;> cases b <;> simp_all [supported4, dotTypeOk]

theorem dotTypeOk_false_right (a b : Dtype) (h : b ∉ supported4) :
    dotTypeOk a b = false := by
  cases a <;> cases b <;> simp_all [supported4, dotTypeOk]

/-- C5 (amended).  `dot`, `transpose`, `conj`, `diag`, `svd` and `pinv` all
test the element type as their first step: on a matrix whose dtype is
outside the operation's supported set they raise
`ValueError` (`UnsupportedTypeError`) with the device state untouched — no
allocation, no kernel launch, no backend call, no side effects.  `mdot` has
no check of its own: a bad dtype among the first two arguments is rejected
cleanly by the first `dot` call, but (see the counterexample) a bad dtype in
a later argument is rejected only after device calls and a free have
happened, and a single-argument `mdot` returns the matrix with no check at
all. -/
theorem typecheck_clean_c5 (env : Env) (st : DevState) (a b : GPUArray)
    (fm cu : Bool) (rest : List GPUArray) :
    (a.dtype ∉ supported4 → dotRun env a b st = (.error .unsupportedType, st)) ∧
    (b.dtype ∉ supported4 → dotRun env a b st = (.error .unsupportedType, st)) ∧
    (a.dtype ∉ supported4 →
      transposeRun env a st = (.error .unsupportedType, st)) ∧
    (a.dtype ∉ supported4 → conjRun env a st = (.error .unsupportedType, st)) ∧
    (a.dtype ∉ supported4 → diagRun env a st = (.error .unsupportedType, st)) ∧
    (¬(a.dtype = .complex64 ∨ a.dtype = .float32) →
      svdRun env a fm cu st = (.error .unsupportedType, st)) ∧
    (¬(a.dtype = .float32 ∨ a.dtype = .complex64) →
      pinvRun env a st = (.error .unsupportedType, st)) ∧
    (b.dtype ∉ supported4 →
      mdotRun env (a :: b :: rest) st = (.error .unsupportedType, st)) ∧
    mdotRun env [a] st = (.ok a, st) := by
  refine ⟨?_, ?_, ?_, ?_, ?_, ?_, ?_, ?_, rfl⟩
  · intro h
    unfold dotRun
    rw [dotTypeOk_false_left a.dtype b.dtype h]
    rfl
  · intro h
    unfold dotRun
    rw [dotTypeOk_false_right a.dtype b.dtype h]
    rfl
  · intro h
    unfold transposeRun
    rw [if_neg h]
  · intro h
    unfold conjRun
    have h1 : ¬(a.dtype = .float32 ∨ a.dtype = .float64) := by
      simp_all [supported4]
    have h2 : ¬(a.dtype = .complex64 ∨ a.dtype = .complex128) := by
      simp_all [supported4]
    rw [if_neg h1, if_neg h2]
  · intro h
    unfold diagRun
    rw [if_neg h]
  · intro h
    unfold svdRun
    rw [if_neg h]
  · intro h
    unfold pinvRun
    rw [if_neg h]
  · intro h
    unfold mdotRun mdotLoop
    unfold dotRun
    rw [dotTypeOk_false_right a.dtype b.dtype h, if_neg (by decide)]

/-- Witness for C5 at concrete inputs: `transpose` on an unsupported dtype
rejects with the device state untouched. -/
theorem typecheck_clean_c5_w :
    transposeRun env0 gInt stFresh1 = (.error .unsupportedType, stFresh1) :=
  (typecheck_clean_c5 env0 stFresh1 gInt gInt false false []).2.2.1 (by decide)

end CudaLinalg

namespace CudaLinalg

/-- C2 (amended).  `pinv` applies the element-wise inversion
`s_gpu **= np.float32(-1)` unconditionally — there is no zero test and no
`DivisionSingularityError` anywhere in the module — so on any float32 input
whose backend calls succeed it returns a result, whatever the singular
values are; a zero singular value simply becomes `+inf` (IEEE
`pow(0, -1)`). -/
theorem pinv_inversion_total_c2 (env : Env) (a : GPUArray) (st : DevState)
    (hdt : a.dtype = .float32)
    (hsvd : ∀ dt ju jv m n l, (env.gesvd dt ju jv m n l).status = 0)
    (hgemm : ∀ dt x y, (env.gemm dt x y).2 = 0) :
    exceptIsOk (pinvRun env a st).1 = true ∧
    ieeePowNeg1 (F32.fin 0) = F32.inf := by
  refine ⟨?_, rfl⟩
  obtain ⟨g, sh, dt, ct⟩ := a
  simp only [] at hdt
  subst hdt
  simp [pinvRun, conjRun, svdRun, transposeRun, diagRun, dotRun, hsvd, hgemm,
    gpuarrayEmpty, pushEvent, supported4, dotTypeOk, exceptIsOk]

/-- Witness for C2's amended claim at a concrete float32 input. -/
theorem pinv_inversion_total_c2_w :
    exceptIsOk (pinvRun env0 aPinv stFresh1).1 = true ∧
    ieeePowNeg1 (F32.fin 0) = F32.inf :=
  pinv_inversion_total_c2 env0 aPinv stFresh1 rfl
    (fun _ _ _ _ _ _ => rfl) (fun _ _ _ => rfl)

end CudaLinalg

namespace CudaLinalg

/-- C7 (amended).  `pinv` contains no `free` call at all: on its normal path
(float32 input, backend calls succeeding) the trace it appends contains
allocations, kernel launches and backend calls but not a single free, so
every intermediate buffer (`Uᴴ`, `Σ⁺`, `V`, `Σ⁺·Uᴴ`, and the three SVD
outputs) is still allocated when `pinv` returns; nothing is released "once
consumed".  (The buffers are reclaimed only later, by the python runtime,
when the local references die at function exit.) -/
theorem pinv_no_free_c7 (env : Env) (a : GPUArray) (st : DevState)
    (hdt : a.dtype = .float32)
    (hsvd : ∀ dt ju jv m n l, (env.gesvd dt ju jv m n l).status = 0)
    (hgemm : ∀ dt x y, (env.gemm dt x y).2 = 0) :
    freeCount (pinvRun env a st).2 = freeCount st := by
  obtain ⟨g, sh, dt, ct⟩ := a
  simp only [] at hdt
  subst hdt
  simp [pinvRun, conjRun, svdRun, transposeRun, diagRun, dotRun, hsvd, hgemm,
    gpuarrayEmpty, pushEvent, supported4, dotTypeOk, freeCount, Event.isFree,
    List.countP_append]

/-- Witness for C7's amended claim at a concrete float32 input. -/
theorem pinv_no_free_c7_w :
    freeCount (pinvRun env0 aPinv stFresh1).2 = freeCount stFresh1 :=
  pinv_no_free_c7 env0 aPinv stFresh1 rfl
    (fun _ _ _ _ _ _ => rfl) (fun _ _ _ => rfl)

end CudaLinalg
